import Mathlib

/-!
Verification of the Soapbox-Telematics sensor core (`src/sensors.py`).

Shallow embedding conventions:
* Python floats are modelled as exact rationals (`ℚ`).
* Every call to `time.time()` is modelled by an explicit `now : ℚ` argument;
  distinct `time.time()` calls inside one Python method body (which differ only
  by microseconds) are modelled by the same `now`.
* `math.sqrt` is an external library function, so it is modelled by a function
  parameter `sqrt : ℚ → ℚ`; theorems that depend on its value constrain it by
  the defining properties of the square root at the relevant argument.
* A channel read that may raise is modelled by an `Except Unit α` input giving
  the outcome of the underlying read; the `try/except` in the coordinator
  becomes a `match` on that outcome.
* The statistics JSON file is modelled by `Option SavedStats` (`none` =
  missing or unparseable file).
-/

namespace Soapbox

/-- The four per-channel health-tracking identifiers of `SensorManager`
(`hall`, `barometer`, `thermometer`, `accelerometer`). -/
inductive Channel where
  | hall
  | barometer
  | thermometer
  | accelerometer
deriving DecidableEq, Repr

/-- The mutable state of `StatisticsTracker` (sensors.py lines 39-53):
four statistics fields plus the two wall-clock references. -/
structure StatsState where
  max_speed_kmh : ℚ
  total_distance_km : ℚ
  max_cornering_force_g : ℚ
  max_braking_force_g : ℚ
  session_start_time : ℚ
  last_update_time : ℚ
deriving DecidableEq, Repr

/-- The persisted JSON layout written by `StatisticsTracker._save_data`
(sensors.py lines 72-78). -/
structure SavedStats where
  max_speed_kmh : ℚ
  total_distance_km : ℚ
  max_cornering_force_g : ℚ
  max_braking_force_g : ℚ
  last_updated : ℚ
deriving DecidableEq, Repr

/-- `StatisticsTracker.__init__` before `_load_data` (lines 44-50): all four
statistics zero, both time references set to the construction time. -/
def StatsState.init (now : ℚ) : StatsState :=
  { max_speed_kmh := 0
    total_distance_km := 0
    max_cornering_force_g := 0
    max_braking_force_g := 0
    session_start_time := now
    last_update_time := now }

/-- `StatisticsTracker._save_data` (lines 68-82): serializes the four
statistics fields plus a `last_updated` timestamp. -/
def save_data (st : StatsState) (now : ℚ) : SavedStats :=
  { max_speed_kmh := st.max_speed_kmh
    total_distance_km := st.total_distance_km
    max_cornering_force_g := st.max_cornering_force_g
    max_braking_force_g := st.max_braking_force_g
    last_updated := now }

/-- `StatisticsTracker._load_data` (lines 55-66): a present, parseable file
overwrites the four statistics fields; a missing or unreadable file leaves
the zero defaults in place. -/
def load_data (st : StatsState) (file : Option SavedStats) : StatsState :=
  match file with
  | none => st
  | some d =>
      { st with
        max_speed_kmh := d.max_speed_kmh
        total_distance_km := d.total_distance_km
        max_cornering_force_g := d.max_cornering_force_g
        max_braking_force_g := d.max_braking_force_g }

/-- `StatisticsTracker.__init__` (lines 39-53): initialize, then load the
data file. -/
def StatsState.new (file : Option SavedStats) (now : ℚ) : StatsState :=
  load_data (StatsState.init now) file

/-- `StatisticsTracker.update_speed` (lines 84-89). -/
def update_speed (st : StatsState) (speed_kmh : ℚ) : StatsState :=
  if speed_kmh > st.max_speed_kmh then
    { st with max_speed_kmh := speed_kmh }
  else
    st

/-- `StatisticsTracker.update_distance` (lines 91-103): accumulate
`speed * Δt / 3600` when both the elapsed time and the speed are positive;
always advance `last_update_time`. -/
def update_distance (st : StatsState) (current_speed_kmh : ℚ) (now : ℚ) :
    StatsState :=
  let time_diff := now - st.last_update_time
  let st1 :=
    if time_diff > 0 ∧ current_speed_kmh > 0 then
      { st with
        total_distance_km :=
          st.total_distance_km + current_speed_kmh * time_diff / 3600 }
    else
      st
  { st1 with last_update_time := now }

/-- Lateral (cornering) force computed by `update_acceleration` (line 109):
`math.sqrt(ax_g**2 + ay_g**2)`. -/
def lateral_force (sqrt : ℚ → ℚ) (ax_g ay_g : ℚ) : ℚ :=
  sqrt (ax_g ^ 2 + ay_g ^ 2)

/-- Braking force computed by `update_acceleration` (line 115):
`abs(min(0, az_g - 1.0))`. -/
def braking_force (az_g : ℚ) : ℚ :=
  |min 0 (az_g - 1)|

/-- `StatisticsTracker.update_acceleration` (lines 105-118): replace each of
the two force maxima when the newly computed force strictly exceeds it. -/
def update_acceleration (sqrt : ℚ → ℚ) (st : StatsState)
    (ax_g ay_g az_g : ℚ) : StatsState :=
  let st1 :=
    if lateral_force sqrt ax_g ay_g > st.max_cornering_force_g then
      { st with max_cornering_force_g := lateral_force sqrt ax_g ay_g }
    else
      st
  if braking_force az_g > st1.max_braking_force_g then
    { st1 with max_braking_force_g := braking_force az_g }
  else
    st1

/-- The snapshot returned by `StatisticsTracker.get_statistics`
(lines 120-129). -/
structure Statistics where
  max_speed_kmh : ℚ
  total_distance_km : ℚ
  max_cornering_force_g : ℚ
  max_braking_force_g : ℚ
  session_duration_hours : ℚ
deriving DecidableEq, Repr

/-- `StatisticsTracker.get_statistics` (lines 120-129). -/
def get_statistics (st : StatsState) (now : ℚ) : Statistics :=
  { max_speed_kmh := st.max_speed_kmh
    total_distance_km := st.total_distance_km
    max_cornering_force_g := st.max_cornering_force_g
    max_braking_force_g := st.max_braking_force_g
    session_duration_hours := (now - st.session_start_time) / 3600 }

/-- `StatisticsTracker.reset_statistics` (lines 131-140). -/
def reset_statistics (_st : StatsState) (now : ℚ) : StatsState :=
  { max_speed_kmh := 0
    total_distance_km := 0
    max_cornering_force_g := 0
    max_braking_force_g := 0
    session_start_time := now
    last_update_time := now }

/-- A finite sequence of `update_speed` calls applied in order. -/
def run_update_speeds (st : StatsState) (vs : List ℚ) : StatsState :=
  vs.foldl update_speed st

/-- The mutable state of `HallSensor` (sensors.py lines 146-152) relevant to
the pulse handler: configuration plus the three pulse-tracking fields. -/
structure HallState where
  wheel_circumference_m : ℚ
  last_pulse_time : ℚ
  pulse_count : ℕ
  speed_kmh : ℚ
deriving DecidableEq, Repr

/-- `HallSensor.__init__` field initialization (lines 149-151):
`last_pulse_time = 0`, `pulse_count = 0`, `speed_kmh = 0.0`. -/
def HallState.init (wheel_circumference_m : ℚ) : HallState :=
  { wheel_circumference_m := wheel_circumference_m
    last_pulse_time := 0
    pulse_count := 0
    speed_kmh := 0 }

/-- `HallSensor._pulse_callback` (lines 163-176): recompute the speed only
when a previous pulse exists (`last_pulse_time > 0`) and the inter-pulse
interval is positive; always record the pulse time and bump the counter. -/
def pulse_callback (st : HallState) (now : ℚ) : HallState :=
  let st1 :=
    if st.last_pulse_time > 0 then
      let time_diff := now - st.last_pulse_time
      if time_diff > 0 then
        { st with speed_kmh := st.wheel_circumference_m / time_diff * (36 / 10) }
      else
        st
    else
      st
  { st1 with last_pulse_time := now, pulse_count := st.pulse_count + 1 }

/-- The mutable state of `SensorManager` (sensors.py lines 303-328):
calibration offsets, per-channel error flags and last-success timestamps,
plus the owned statistics tracker. -/
structure ManagerState where
  speed_offset : ℚ
  altitude_offset : ℚ
  temp_offset : ℚ
  sensor_errors : Channel → Bool
  last_successful_reads : Channel → ℚ
  statistics : StatsState

/-- `SensorManager.error_timeout` (line 328): 5.0 seconds. -/
def error_timeout : ℚ := 5

/-- `SensorManager.__init__` state (lines 303-328): offsets zero, no channel
errored, every channel's last successful read stamped with the construction
time, fresh statistics tracker loaded from `file`. -/
def ManagerState.init (file : Option SavedStats) (now : ℚ) : ManagerState :=
  { speed_offset := 0
    altitude_offset := 0
    temp_offset := 0
    sensor_errors := fun _ => false
    last_successful_reads := fun _ => now
    statistics := StatsState.new file now }

/-- `SensorManager.get_speed_kmh` (lines 330-345). `read` is the outcome of
`self.hall_sensor.get_speed_kmh()`; on success the offset speed is clamped
at 0, the hall channel is marked healthy, and the statistics tracker is fed;
on an exception the hall channel is marked errored and `0.0` is returned
with everything else untouched. -/
def mgr_get_speed_kmh (read : Except Unit ℚ) (mgr : ManagerState) (now : ℚ) :
    ℚ × ManagerState :=
  match read with
  | .ok raw =>
      let speed := max 0 (raw + mgr.speed_offset)
      let stats1 := update_speed mgr.statistics speed
      let stats2 := update_distance stats1 speed now
      (speed,
        { mgr with
          last_successful_reads :=
            Function.update mgr.last_successful_reads Channel.hall now
          sensor_errors := Function.update mgr.sensor_errors Channel.hall false
          statistics := stats2 })
  | .error _ =>
      (0, { mgr with
            sensor_errors := Function.update mgr.sensor_errors Channel.hall true })

/-- `SensorManager.get_altitude_m` (lines 347-357). -/
def mgr_get_altitude_m (read : Except Unit ℚ) (mgr : ManagerState) (now : ℚ) :
    ℚ × ManagerState :=
  match read with
  | .ok raw =>
      (raw + mgr.altitude_offset,
        { mgr with
          last_successful_reads :=
            Function.update mgr.last_successful_reads Channel.barometer now
          sensor_errors :=
            Function.update mgr.sensor_errors Channel.barometer false })
  | .error _ =>
      (0, { mgr with
            sensor_errors :=
              Function.update mgr.sensor_errors Channel.barometer true })

/-- `SensorManager.get_temperature_c` (lines 359-369). -/
def mgr_get_temperature_c (read : Except Unit ℚ) (mgr : ManagerState)
    (now : ℚ) : ℚ × ManagerState :=
  match read with
  | .ok raw =>
      (raw + mgr.temp_offset,
        { mgr with
          last_successful_reads :=
            Function.update mgr.last_successful_reads Channel.thermometer now
          sensor_errors :=
            Function.update mgr.sensor_errors Channel.thermometer false })
  | .error _ =>
      (25, { mgr with
             sensor_errors :=
               Function.update mgr.sensor_errors Channel.thermometer true })

/-- `SensorManager.get_acceleration_g` (lines 371-385). No calibration
offset is applied to acceleration; on success the tuple is forwarded to
`update_acceleration`; an exception yields `(0.0, 0.0, 1.0)`. -/
def mgr_get_acceleration_g (sqrt : ℚ → ℚ) (read : Except Unit (ℚ × ℚ × ℚ))
    (mgr : ManagerState) (now : ℚ) : (ℚ × ℚ × ℚ) × ManagerState :=
  match read with
  | .ok accel =>
      (accel,
        { mgr with
          last_successful_reads :=
            Function.update mgr.last_successful_reads Channel.accelerometer now
          sensor_errors :=
            Function.update mgr.sensor_errors Channel.accelerometer false
          statistics :=
            update_acceleration sqrt mgr.statistics accel.1 accel.2.1 accel.2.2 })
  | .error _ =>
      ((0, 0, 1),
        { mgr with
          sensor_errors :=
            Function.update mgr.sensor_errors Channel.accelerometer true })

/-- One channel's record in the mapping returned by
`SensorManager.get_sensor_status` (lines 387-401). -/
structure ChannelStatus where
  healthy : Bool
  error : Bool
  time_since_last_read : ℚ
deriving DecidableEq, Repr

/-- `SensorManager.get_sensor_status` (lines 387-401): per channel, healthy
iff not errored and the last successful read is within `error_timeout`. -/
def mgr_get_sensor_status (mgr : ManagerState) (now : ℚ) :
    Channel → ChannelStatus := fun ch =>
  let time_since_last := now - mgr.last_successful_reads ch
  { healthy := !mgr.sensor_errors ch && decide (time_since_last < error_timeout)
    error := mgr.sensor_errors ch
    time_since_last_read := time_since_last }

/-- `SensorManager.calibrate_speed` (lines 418-421). `raw` is the outcome of
the successful `self.hall_sensor.get_speed_kmh()` read. -/
def mgr_calibrate_speed (mgr : ManagerState) (known_speed_kmh raw : ℚ) :
    ManagerState :=
  { mgr with speed_offset := known_speed_kmh - raw }

end Soapbox

namespace Soapbox

/-! ### Helper lemmas (shared across claims) -/

/-- One `update_speed` call sets the maximum to the join of the old maximum
and the new value. -/
theorem update_speed_max (st : StatsState) (v : ℚ) :
    (update_speed st v).max_speed_kmh = max st.max_speed_kmh v := by
  rcases le_or_lt v st.max_speed_kmh with h | h
  · simp [update_speed, not_lt.mpr h, max_eq_left h]
  · simp [update_speed, h, max_eq_right h.le]

/-- A sequence of `update_speed` calls folds `max` over the inputs. -/
theorem run_update_speeds_max (st : StatsState) (vs : List ℚ) :
    (run_update_speeds st vs).max_speed_kmh = vs.foldl max st.max_speed_kmh := by
  unfold run_update_speeds
  induction vs generalizing st with
  | nil => rfl
  | cons v vs ih =>
      simp only [List.foldl_cons]
      rw [ih, update_speed_max]

/-- Folding `max` never goes below the starting value. -/
theorem le_foldl_max (vs : List ℚ) (b : ℚ) : b ≤ vs.foldl max b := by
  induction vs generalizing b with
  | nil => exact le_refl b
  | cons v vs ih =>
      exact le_trans (le_max_left b v) (ih (max b v))

/-- `update_distance` with positive speed and positive elapsed time adds
`v * Δt / 3600` to the accumulator. -/
theorem update_distance_total_pos (st : StatsState) (v now : ℚ)
    (hv : 0 < v) (ht : 0 < now - st.last_update_time) :
    (update_distance st v now).total_distance_km =
      st.total_distance_km + v * (now - st.last_update_time) / 3600 := by
  simp [update_distance, hv, ht]

/-- `update_distance` with zero speed leaves the accumulator unchanged. -/
theorem update_distance_total_zero (st : StatsState) (now : ℚ) :
    (update_distance st 0 now).total_distance_km = st.total_distance_km := by
  simp [update_distance]

/-- `update_distance` always advances the last-update timestamp. -/
theorem update_distance_last (st : StatsState) (v now : ℚ) :
    (update_distance st v now).last_update_time = now := rfl

/-! ### Claims -/

/-- Claim C2, counterexample to the claim as stated: on a freshly
constructed tracker with all-zero loaded state, the single-call sequence
`update_speed(-1)` leaves `max_speed_kmh = 0`, which is not the maximum
value ever passed in (`-1`). -/
theorem C2_counterexample :
    (run_update_speeds (StatsState.new none 0) [-1]).max_speed_kmh = 0 ∧
    (run_update_speeds (StatsState.new none 0) [-1]).max_speed_kmh ≠ -1 := by
  decide

/-- Claim C2 (amended): after any finite sequence of `update_speed` calls on
a freshly constructed tracker with all-zero loaded state, `max_speed_kmh`
equals the maximum of the initial value 0 and all values passed in (hence
the maximum value ever passed in whenever all inputs are nonnegative), and
`max_speed_kmh` is monotonically non-decreasing across the sequence. -/
theorem C2_max_speed_of_sequence (vs : List ℚ) (t0 : ℚ) :
    (run_update_speeds (StatsState.new none t0) vs).max_speed_kmh =
      vs.foldl max 0
    ∧ ∀ st : StatsState,
        st.max_speed_kmh ≤ (run_update_speeds st vs).max_speed_kmh := by
  constructor
  · rw [run_update_speeds_max]
    rfl
  · intro st
    rw [run_update_speeds_max]
    exact le_foldl_max vs st.max_speed_kmh

/-- Claim C3: with positive speed and positive elapsed time,
`update_distance` adds exactly `v * Δt / 3600` to `total_distance_km`; with
zero speed the accumulator is unchanged; in every case the internal
last-update timestamp is advanced to the current time. -/
theorem C3_update_distance (st : StatsState) (v now : ℚ) :
    (0 < v → 0 < now - st.last_update_time →
      (update_distance st v now).total_distance_km =
        st.total_distance_km + v * (now - st.last_update_time) / 3600)
    ∧ (update_distance st 0 now).total_distance_km = st.total_distance_km
    ∧ (update_distance st v now).last_update_time = now := by
  exact ⟨update_distance_total_pos st v now,
    update_distance_total_zero st now, update_distance_last st v now⟩

/-- Witness for C3 at speed 10 km/h over 360 s from a fresh tracker:
the distance becomes exactly 1 km, a zero-speed call adds nothing, and the
timestamp advances. -/
theorem C3_witness :
    (update_distance (StatsState.init 0) 10 360).total_distance_km = 1 ∧
    (update_distance (StatsState.init 0) 0 360).total_distance_km = 0 ∧
    (update_distance (StatsState.init 0) 10 360).last_update_time = 360 := by
  obtain ⟨h1, h2, h3⟩ := C3_update_distance (StatsState.init 0) 10 360
  refine ⟨?_, by simpa [StatsState.init] using h2, h3⟩
  rw [h1 (by norm_num) (by norm_num [StatsState.init])]
  norm_num [StatsState.init]

/-- Claim C4: after `reset_statistics`, a `get_statistics` call at the same
instant returns all four numeric fields and the session duration exactly 0,
regardless of prior state. -/
theorem C4_reset_statistics (st : StatsState) (now : ℚ) :
    get_statistics (reset_statistics st now) now =
      { max_speed_kmh := 0, total_distance_km := 0, max_cornering_force_g := 0,
        max_braking_force_g := 0, session_duration_hours := 0 } := by
  simp [get_statistics, reset_statistics]

end Soapbox

namespace Soapbox

/-- Claim C5: `update_acceleration` computes the lateral force
`sqrt(ax² + ay²)` and the braking force `abs(min(0, az - 1))`, and replaces
each stored maximum exactly when the computed force exceeds it; on a fresh
all-zero tracker, `update_acceleration(0.03, 0.04, 0.95)` yields
`max_cornering_force_g = 0.05` and `max_braking_force_g = 0.05`, where the
`sqrt` hypotheses state the defining properties of the square root at the
argument `0.03² + 0.04²`. -/
theorem C5_update_acceleration (sqrt : ℚ → ℚ) (st : StatsState)
    (ax ay az : ℚ)
    (hnn : 0 ≤ sqrt ((3 / 100 : ℚ) ^ 2 + (4 / 100) ^ 2))
    (hsq : sqrt ((3 / 100 : ℚ) ^ 2 + (4 / 100) ^ 2) ^ 2 =
      (3 / 100 : ℚ) ^ 2 + (4 / 100) ^ 2) :
    ((update_acceleration sqrt st ax ay az).max_cornering_force_g =
      if lateral_force sqrt ax ay > st.max_cornering_force_g
      then lateral_force sqrt ax ay else st.max_cornering_force_g)
    ∧ ((update_acceleration sqrt st ax ay az).max_braking_force_g =
      if braking_force az > st.max_braking_force_g
      then braking_force az else st.max_braking_force_g)
    ∧ (update_acceleration sqrt (StatsState.new none 0)
        (3 / 100) (4 / 100) (19 / 20)).max_cornering_force_g = 1 / 20
    ∧ (update_acceleration sqrt (StatsState.new none 0)
        (3 / 100) (4 / 100) (19 / 20)).max_braking_force_g = 1 / 20 := by
  have hval : sqrt ((3 / 100 : ℚ) ^ 2 + (4 / 100) ^ 2) = 1 / 20 := by
    have h400 : sqrt ((3 / 100 : ℚ) ^ 2 + (4 / 100) ^ 2) ^ 2 = 1 / 400 := by
      rw [hsq]; norm_num
    have hfac : (sqrt ((3 / 100 : ℚ) ^ 2 + (4 / 100) ^ 2) - 1 / 20) *
        (sqrt ((3 / 100 : ℚ) ^ 2 + (4 / 100) ^ 2) + 1 / 20) = 0 := by
      have hexp : (sqrt ((3 / 100 : ℚ) ^ 2 + (4 / 100) ^ 2) - 1 / 20) *
          (sqrt ((3 / 100 : ℚ) ^ 2 + (4 / 100) ^ 2) + 1 / 20) =
          sqrt ((3 / 100 : ℚ) ^ 2 + (4 / 100) ^ 2) ^ 2 - 1 / 400 := by ring
      rw [hexp, h400]; ring
    rcases mul_eq_zero.mp hfac with h | h
    · linarith
    · linarith
  have hc : lateral_force sqrt (3 / 100) (4 / 100) = 1 / 20 := by
    simp only [lateral_force]
    exact hval
  have hb : braking_force (19 / 20 : ℚ) = 1 / 20 := by
    simp only [braking_force]
    norm_num
  refine ⟨?_, ?_, ?_, ?_⟩
  · by_cases h1 : lateral_force sqrt ax ay > st.max_cornering_force_g <;>
      by_cases h2 : braking_force az > st.max_braking_force_g <;>
        simp [update_acceleration, h1, h2]
  · by_cases h1 : lateral_force sqrt ax ay > st.max_cornering_force_g <;>
      by_cases h2 : braking_force az > st.max_braking_force_g <;>
        simp [update_acceleration, h1, h2]
  · simp only [update_acceleration, StatsState.new, load_data,
      StatsState.init, hc, hb]
    norm_num
  · simp only [update_acceleration, StatsState.new, load_data,
      StatsState.init, hc, hb]
    norm_num

/-- Witness for C5: the function returning `1/20` everywhere satisfies the
square-root hypotheses at `0.03² + 0.04² = 1/400`, and the concrete update
on a fresh tracker produces both maxima equal to `1/20 = 0.05`. -/
theorem C5_witness :
    ((0 : ℚ) ≤ 1 / 20 ∧ ((1 / 20 : ℚ)) ^ 2 = (3 / 100 : ℚ) ^ 2 + (4 / 100) ^ 2)
    ∧ (update_acceleration (fun _ => 1 / 20) (StatsState.new none 0)
        (3 / 100) (4 / 100) (19 / 20)).max_cornering_force_g = 1 / 20
    ∧ (update_acceleration (fun _ => 1 / 20) (StatsState.new none 0)
        (3 / 100) (4 / 100) (19 / 20)).max_braking_force_g = 1 / 20 := by
  have h := C5_update_acceleration (fun _ => (1 / 20 : ℚ))
    (StatsState.new none 0) 0 0 0 (by norm_num) (by norm_num)
  exact ⟨⟨by norm_num, by norm_num⟩, h.2.2.1, h.2.2.2⟩

/-- Claim C9: the pulse handler leaves `speed_kmh` unchanged on the first
pulse ever (`last_pulse_time = 0`) and on any pulse whose time difference
from the previous pulse is not positive, while `last_pulse_time` and
`pulse_count` are updated on every pulse. -/
theorem C9_pulse_safety (st : HallState) (now : ℚ) :
    ((st.last_pulse_time = 0 ∨ now - st.last_pulse_time ≤ 0) →
      (pulse_callback st now).speed_kmh = st.speed_kmh)
    ∧ (pulse_callback st now).last_pulse_time = now
    ∧ (pulse_callback st now).pulse_count = st.pulse_count + 1 := by
  refine ⟨?_, rfl, rfl⟩
  intro h
  unfold pulse_callback
  rcases h with h | h
  · simp [h]
  · by_cases h1 : st.last_pulse_time > 0
    · simp [h1, not_lt.mpr (sub_nonpos.mp h)]
    · simp [h1]

/-- Witness for C9: the very first pulse (at time 5 on a fresh channel with
`last_pulse_time = 0`) leaves the speed at 0 but records the pulse time and
increments the counter. -/
theorem C9_witness :
    (pulse_callback (HallState.init 1) 5).speed_kmh = 0 ∧
    (pulse_callback (HallState.init 1) 5).last_pulse_time = 5 ∧
    (pulse_callback (HallState.init 1) 5).pulse_count = 1 := by
  obtain ⟨h1, h2, h3⟩ := C9_pulse_safety (HallState.init 1) 5
  exact ⟨h1 (Or.inl rfl), h2, h3⟩

/-- Claim C1: when the underlying channel read raises, each coordinator
accessor marks that channel errored and returns its safe fallback value
(0 for speed, 0 for altitude, 25 for temperature, (0, 0, 1) for
acceleration) instead of propagating the exception. -/
theorem C1_error_fallbacks (sqrt : ℚ → ℚ) (mgr : ManagerState) (now : ℚ) :
    (mgr_get_speed_kmh (.error ()) mgr now).1 = 0
    ∧ (mgr_get_speed_kmh (.error ()) mgr now).2.sensor_errors Channel.hall = true
    ∧ (mgr_get_altitude_m (.error ()) mgr now).1 = 0
    ∧ (mgr_get_altitude_m (.error ()) mgr now).2.sensor_errors
        Channel.barometer = true
    ∧ (mgr_get_temperature_c (.error ()) mgr now).1 = 25
    ∧ (mgr_get_temperature_c (.error ()) mgr now).2.sensor_errors
        Channel.thermometer = true
    ∧ (mgr_get_acceleration_g sqrt (.error ()) mgr now).1 = (0, 0, 1)
    ∧ (mgr_get_acceleration_g sqrt (.error ()) mgr now).2.sensor_errors
        Channel.accelerometer = true := by
  refine ⟨rfl, ?_, rfl, ?_, rfl, ?_, rfl, ?_⟩ <;>
    simp [mgr_get_speed_kmh, mgr_get_altitude_m, mgr_get_temperature_c,
      mgr_get_acceleration_g, Function.update]

end Soapbox

namespace Soapbox

/-- Claim C6: a channel is reported healthy exactly when its errored flag is
false and the elapsed time since its last successful read is strictly below
the 5.0-second timeout; a channel silent for at least the timeout reports
unhealthy, and immediately after a successful read through any accessor the
corresponding channel reports healthy. -/
theorem C6_sensor_status (mgr : ManagerState) (now : ℚ) (ch : Channel) :
    ((mgr_get_sensor_status mgr now ch).healthy = true ↔
      mgr.sensor_errors ch = false ∧
        now - mgr.last_successful_reads ch < error_timeout)
    ∧ (error_timeout ≤ now - mgr.last_successful_reads ch →
        (mgr_get_sensor_status mgr now ch).healthy = false)
    ∧ (∀ raw, (mgr_get_sensor_status (mgr_get_speed_kmh (.ok raw) mgr now).2
        now Channel.hall).healthy = true)
    ∧ (∀ raw, (mgr_get_sensor_status (mgr_get_altitude_m (.ok raw) mgr now).2
        now Channel.barometer).healthy = true)
    ∧ (∀ raw, (mgr_get_sensor_status (mgr_get_temperature_c (.ok raw) mgr now).2
        now Channel.thermometer).healthy = true)
    ∧ (∀ sqrt accel, (mgr_get_sensor_status
        (mgr_get_acceleration_g sqrt (.ok accel) mgr now).2
        now Channel.accelerometer).healthy = true) := by
  refine ⟨by simp [mgr_get_sensor_status], ?_, ?_, ?_, ?_, ?_⟩
  · intro h
    simp [mgr_get_sensor_status, not_lt.mpr h]
  · intro raw
    simp [mgr_get_sensor_status, mgr_get_speed_kmh, Function.update,
      error_timeout]
  · intro raw
    simp [mgr_get_sensor_status, mgr_get_altitude_m, Function.update,
      error_timeout]
  · intro raw
    simp [mgr_get_sensor_status, mgr_get_temperature_c, Function.update,
      error_timeout]
  · intro sqrt accel
    simp [mgr_get_sensor_status, mgr_get_acceleration_g, Function.update,
      error_timeout]

/-- Witness for C6: on a coordinator constructed at time 0, the hall channel
is reported unhealthy at time 10 (silence ≥ 5 s) and healthy at time 1. -/
theorem C6_witness :
    (mgr_get_sensor_status (ManagerState.init none 0) 10 Channel.hall).healthy
      = false
    ∧ (mgr_get_sensor_status (ManagerState.init none 0) 1 Channel.hall).healthy
      = true := by
  constructor
  · exact (C6_sensor_status (ManagerState.init none 0) 10 Channel.hall).2.1
      (by norm_num [ManagerState.init, error_timeout])
  · exact (C6_sensor_status (ManagerState.init none 0) 1 Channel.hall).1.mpr
      ⟨rfl, by norm_num [ManagerState.init, error_timeout]⟩

/-- Claim C7, counterexample to the claim as stated: for the known value
`-1` with raw reading `0`, `calibrate_speed(-1)` stores offset `-1`, but the
next `get_speed_kmh()` with raw reading still `0` returns the clamped value
`0`, not the known value `-1` (the coordinator floors the offset speed at
0). -/
theorem C7_counterexample :
    (mgr_get_speed_kmh (.ok 0)
      (mgr_calibrate_speed (ManagerState.init none 0) (-1) 0) 0).1 = 0
    ∧ (mgr_get_speed_kmh (.ok 0)
      (mgr_calibrate_speed (ManagerState.init none 0) (-1) 0) 0).1 ≠ -1 := by
  norm_num [mgr_get_speed_kmh, mgr_calibrate_speed, ManagerState.init]

/-- Claim C7 (amended): for every nonnegative known value `k`, if
`calibrate_speed(k)` is called when the hall channel's raw reading is `r`,
and the raw reading is still `r` at the next `get_speed_kmh()` call, then
that call returns `k`. -/
theorem C7_calibration_roundtrip (mgr : ManagerState) (known raw now : ℚ)
    (h : 0 ≤ known) :
    (mgr_get_speed_kmh (.ok raw) (mgr_calibrate_speed mgr known raw) now).1
      = known := by
  simp only [mgr_get_speed_kmh, mgr_calibrate_speed]
  rw [show raw + (known - raw) = known by ring]
  exact max_eq_right h

/-- Witness for C7: calibrating with known speed 3 at raw reading 7 makes
the next read at raw 7 return exactly 3. -/
theorem C7_witness :
    (0 : ℚ) ≤ 3 ∧
    (mgr_get_speed_kmh (.ok 7)
      (mgr_calibrate_speed (ManagerState.init none 0) 3 7) 0).1 = 3 :=
  ⟨by norm_num,
    C7_calibration_roundtrip (ManagerState.init none 0) 3 7 0 (by norm_num)⟩

/-- Claim C8: reconstructing a tracker from the file written by `_save_data`
restores the four persisted statistics exactly, while the session-start and
last-update timestamps take the new construction time rather than the saved
ones. -/
theorem C8_persistence_roundtrip (st : StatsState) (save_time t0 : ℚ) :
    (StatsState.new (some (save_data st save_time)) t0).max_speed_kmh
      = st.max_speed_kmh
    ∧ (StatsState.new (some (save_data st save_time)) t0).total_distance_km
      = st.total_distance_km
    ∧ (StatsState.new (some (save_data st save_time)) t0).max_cornering_force_g
      = st.max_cornering_force_g
    ∧ (StatsState.new (some (save_data st save_time)) t0).max_braking_force_g
      = st.max_braking_force_g
    ∧ (StatsState.new (some (save_data st save_time)) t0).session_start_time
      = t0
    ∧ (StatsState.new (some (save_data st save_time)) t0).last_update_time
      = t0 :=
  ⟨rfl, rfl, rfl, rfl, rfl, rfl⟩

/-- Claim C10: when the hall read raises inside `get_speed_kmh`, the whole
statistics tracker state (and the hall last-success timestamp) is left
unchanged, so a later successful `update_distance` at time `t2` with
positive speed `v` accumulates over the Δt measured from the last update
before the error — the errored interval is included. -/
theorem C10_error_frame (mgr : ManagerState) (now : ℚ) :
    (mgr_get_speed_kmh (.error ()) mgr now).2.statistics = mgr.statistics
    ∧ (mgr_get_speed_kmh (.error ()) mgr now).2.last_successful_reads
        = mgr.last_successful_reads
    ∧ (∀ v t2, 0 < v → 0 < t2 - mgr.statistics.last_update_time →
        (update_distance (mgr_get_speed_kmh (.error ()) mgr now).2.statistics
          v t2).total_distance_km
          = mgr.statistics.total_distance_km
            + v * (t2 - mgr.statistics.last_update_time) / 3600) := by
  refine ⟨rfl, rfl, ?_⟩
  intro v t2 hv ht
  exact update_distance_total_pos mgr.statistics v t2 hv ht

/-- Witness for C10: after an errored read at time 1 on a coordinator
constructed at time 0, the statistics are untouched and an `update_distance`
at time 360 with speed 10 accumulates the full kilometre measured from the
construction time. -/
theorem C10_witness :
    (mgr_get_speed_kmh (.error ()) (ManagerState.init none 0) 1).2.statistics
      = (ManagerState.init none 0).statistics
    ∧ (update_distance
        (mgr_get_speed_kmh (.error ()) (ManagerState.init none 0) 1).2.statistics
        10 360).total_distance_km = 1 := by
  have h := C10_error_frame (ManagerState.init none 0) 1
  refine ⟨h.1, ?_⟩
  rw [h.2.2 10 360 (by norm_num)
    (by norm_num [ManagerState.init, StatsState.new, load_data, StatsState.init])]
  norm_num [ManagerState.init, StatsState.new, load_data, StatsState.init]

end Soapbox
